import Mathlib

/-!
Shallow embedding of the backtester backend's validation/repair loop and
metrics-aggregation engine, together with theorems settling the frozen
claims about them.

Sources embedded:
  * `backtester/utils/code_validator.py`
      (`CodeValidator.extract_parameters`, `CodeValidator.execute_in_sandbox`,
       `CodeValidator.validate_code`, `CodeValidator.check_and_correct_strategy`)
  * `backtester/utils/metrics.py`
      (`safe_mean`, `Metrics.calculate`, `Metrics._calculate_single`,
       `Metrics._calculate_multiple`, `Metrics._process_trade_analysis`)
  * `backtester/utils/llm_interface.py` (`extract_code`)
  * `backtester/utils/backtester.py` (`Backtester.run_backtest`)
-/

namespace Backtester

/-! ## Python AST fragment used by `extract_parameters`

`extract_parameters` parses the strategy source with `ast.parse` and walks
the tree looking for `class MyStrategy` bodies with `params = (...)`
assignments.  We embed exactly the node shapes the walk distinguishes:

  * `ast.Constant` with a `str` payload (what `isinstance(_, ast.Str)`
    recognises; its `.s`/`.value` both give the string),
  * `ast.Constant` with an `int`/`float` payload (what
    `isinstance(_, ast.Num)` recognises; `.n`/`.value` give the number,
    modelled as `ℚ`),
  * `ast.Constant` with any other payload (`None`, `True`, ...): it still
    has a `.value` attribute,
  * `ast.Name`: has neither `.s`, `.n` nor `.value`, so attribute access
    raises `AttributeError`,
  * `ast.Tuple`: likewise has no `.value`.
-/

inductive PyExpr where
  | constStr (s : String)
  | constNum (n : ℚ)
  | constOther
  | name (id : String)
  | tuple (elts : List PyExpr)

/-- Runtime value a constant node denotes, as stored into the parameter dict. -/
inductive PyVal where
  | strV (s : String)
  | numV (n : ℚ)
  | otherV
  deriving DecidableEq

/-- Exceptions `extract_parameters` can raise. -/
inductive PyErr where
  | syntaxError
  | attributeError
  deriving DecidableEq

/-- Assignment targets: the walk only reacts to `ast.Name` targets. -/
inductive PyTarget where
  | nameT (id : String)
  | otherT
  deriving DecidableEq

/-- Class-body statements: the walk only reacts to `ast.Assign`. -/
inductive PyStmt where
  | assign (targets : List PyTarget) (value : PyExpr)
  | otherStmt

/-- A class definition as seen by `ast.walk`. -/
structure PyClassDef where
  cname : String
  body : List PyStmt

/-- A module: the class definitions `ast.walk` encounters, in walk order. -/
abbrev PyModule := List PyClassDef

/-- Strategy source code, as far as `ast.parse` is concerned: either it
parses to a module or `ast.parse` raises `SyntaxError`. -/
inductive PyCode where
  | wellFormed (m : PyModule)
  | synErr

/-- Parameter dictionary with Python `dict` insert-or-overwrite semantics
(insertion order preserved, overwriting keeps the original position). -/
abbrev Params := List (PyVal × PyVal)

def dictInsert (ps : Params) (k v : PyVal) : Params :=
  if ps.any (fun p => p.1 = k) then
    ps.map (fun p => if p.1 = k then (k, v) else p)
  else
    ps ++ [(k, v)]

/-- Key access: `elt.elts[0].s if isinstance(elt.elts[0], ast.Str) else elt.elts[0].value`. -/
def pairKey : PyExpr → Except PyErr PyVal
  | .constStr s => .ok (.strV s)
  | .constNum n => .ok (.numV n)
  | .constOther => .ok .otherV
  | .name _ => .error .attributeError
  | .tuple _ => .error .attributeError

/-- Value access: `elt.elts[1].n if isinstance(elt.elts[1], ast.Num) else elt.elts[1].value`. -/
def pairValue : PyExpr → Except PyErr PyVal
  | .constStr s => .ok (.strV s)
  | .constNum n => .ok (.numV n)
  | .constOther => .ok .otherV
  | .name _ => .error .attributeError
  | .tuple _ => .error .attributeError

/-- One element `elt` of the `params` tuple: only 2-element `ast.Tuple`s are
processed; everything else is passed over. -/
def processElt (ps : Params) : PyExpr → Except PyErr Params
  | .tuple [a, b] => do
      let k ← pairKey a
      let v ← pairValue b
      pure (dictInsert ps k v)
  | _ => .ok ps

def processElts (ps : Params) : List PyExpr → Except PyErr Params
  | [] => .ok ps
  | e :: es => do
      let ps' ← processElt ps e
      processElts ps' es

/-- One assignment target: only `ast.Name` targets named `params` whose
assigned value is an `ast.Tuple` contribute. -/
def processTarget (value : PyExpr) (ps : Params) : PyTarget → Except PyErr Params
  | .nameT id =>
      if id = "params" then
        match value with
        | .tuple elts => processElts ps elts
        | _ => .ok ps
      else .ok ps
  | .otherT => .ok ps

def processTargets (value : PyExpr) (ps : Params) : List PyTarget → Except PyErr Params
  | [] => .ok ps
  | t :: ts => do
      let ps' ← processTarget value ps t
      processTargets value ps' ts

def processStmt (ps : Params) : PyStmt → Except PyErr Params
  | .assign targets value => processTargets value ps targets
  | .otherStmt => .ok ps

def processStmts (ps : Params) : List PyStmt → Except PyErr Params
  | [] => .ok ps
  | s :: ss => do
      let ps' ← processStmt ps s
      processStmts ps' ss

def processClass (ps : Params) (c : PyClassDef) : Except PyErr Params :=
  if c.cname = "MyStrategy" then processStmts ps c.body else .ok ps

def processClasses (ps : Params) : List PyClassDef → Except PyErr Params
  | [] => .ok ps
  | c :: cs => do
      let ps' ← processClass ps c
      processClasses ps' cs

/-- Embeds `CodeValidator.extract_parameters`: parse the code (raising
`SyntaxError` on malformed input) and walk every `class MyStrategy`
collecting `params` pairs; an `AttributeError` from a non-constant pair
element propagates out. -/
def extract_parameters : PyCode → Except PyErr Params
  | .synErr => .error .syntaxError
  | .wellFormed m => processClasses [] m

/-! ## Sandbox execution (`execute_in_sandbox`)

The filesystem is modelled as the list of existing paths.  The body of
`execute_in_sandbox` first materialises the code into a fresh temporary
file (`tempfile.NamedTemporaryFile(delete=False)`), then runs it in a
subprocess whose outcome is one of: success, `CalledProcessError` (nonzero
exit: compile or runtime error) or `TimeoutExpired`; the `finally` block
removes the temporary file once, after whichever branch ran. -/

abbrev FS := List String

/-- Possible outcomes of the `subprocess.run` call, supplied as an oracle. -/
inductive RunOutcome where
  | success (stdout : String)
  | calledProcessError (stderr : String)
  | timeoutExpired
  deriving DecidableEq

/-- What `execute_in_sandbox` does from the caller's point of view:
return normally, or raise `RuntimeError` with a message. -/
inductive ExecResult where
  | ok
  | runtimeError (msg : String)
  deriving DecidableEq

/-- Embeds `CodeValidator.execute_in_sandbox`: create the temp file, run the
subprocess (outcome given by the oracle), translate failures into
`RuntimeError`, and — in the `finally` block — `os.remove` the temp file. -/
def execute_in_sandbox (fs : FS) (tmpPath : String) (outcome : RunOutcome) :
    FS × ExecResult :=
  let fsAfterCreate : FS := tmpPath :: fs
  let result : ExecResult :=
    match outcome with
    | .success _ => .ok
    | .calledProcessError stderr => .runtimeError ("Execution error: " ++ stderr)
    | .timeoutExpired => .runtimeError "Execution timed out."
  (fsAfterCreate.filter (fun q => q ≠ tmpPath), result)

/-- Embeds `CodeValidator.validate_code`: run the sandbox and fold any raised
exception into `(False, "Validation error: ...")`. -/
def validate_code (fs : FS) (tmpPath : String) (outcome : RunOutcome) :
    FS × (Bool × String) :=
  match execute_in_sandbox fs tmpPath outcome with
  | (fs', .ok) => (fs', (true, ""))
  | (fs', .runtimeError msg) => (fs', (false, "Validation error: " ++ msg))

/-! ## The validation-and-repair loop (`check_and_correct_strategy`)

The sandbox verdict for a given piece of code and the LLM correction are
external effects; they enter the model as oracle functions.  `Validate`
returns the pair `(is_valid, validation_error)` produced by
`validate_code`; `Correct` is `llm_interface.correct_strategy`. -/

abbrev Validate := PyCode → Bool × String

abbrev Correct := PyCode → String → PyCode

/-- How a call to `check_and_correct_strategy` terminates. -/
inductive CACResult where
  | okR (code : PyCode) (params : Params)
  | pyError (e : PyErr)
  | exhausted (lastError : String)
  | unexpected

/-- Result of a `check_and_correct_strategy` call together with how many
times it invoked `llm_interface.correct_strategy` and how many times it
invoked the sandbox via `validate_code`. -/
structure CACOut where
  result : CACResult
  corrections : Nat
  validations : Nat

/-- The `while attempts < max_attempts` loop, by fuel: with `attempts = a`
remaining fuel is `max_attempts - a`.  Each iteration validates; on success
it extracts parameters and returns (an extraction exception propagates); on
failure it increments `attempts`, raises
`ValueError("Failed to validate the strategy after {max_attempts} attempts.
Last error: {validation_error}")` when `attempts == max_attempts`
(constructor `exhausted` carries the embedded last diagnostic), and
otherwise asks the LLM for a correction and loops. -/
def checkAndCorrectFuel (v : Validate) (c : Correct) : Nat → PyCode → CACOut
  | 0, _ => ⟨.unexpected, 0, 0⟩
  | fuel + 1, code =>
    let verdict := v code
    if verdict.1 then
      match extract_parameters code with
      | .ok ps => ⟨.okR code ps, 0, 1⟩
      | .error e => ⟨.pyError e, 0, 1⟩
    else if fuel = 0 then
      ⟨.exhausted verdict.2, 0, 1⟩
    else
      let rest := checkAndCorrectFuel v c fuel (c code verdict.2)
      ⟨rest.result, rest.corrections + 1, rest.validations + 1⟩

/-- Embeds `CodeValidator.check_and_correct_strategy`.  `max_attempts` is a Python
`int`, so it is `Int` here; `attempts` starts at `0`, so the loop body runs
at most `max_attempts.toNat` times, and when `max_attempts <= 0` the loop is
skipped and the trailing `ValueError("Unexpected error in strategy
correction.")` is raised (constructor `unexpected`). -/
def check_and_correct_strategy (v : Validate) (c : Correct)
    (strategyCode : PyCode) (maxAttempts : Int) : CACOut :=
  checkAndCorrectFuel v c maxAttempts.toNat strategyCode

/-- One failed round as seen from the code value: the next candidate the
loop tries is `correct_strategy(code, validation_error)`. -/
def corrStep (v : Validate) (c : Correct) (code : PyCode) : PyCode :=
  c code (v code).2

/-! ## Metrics (`metrics.py`)

Scalar metric values are rationals; the only non-finite float the code
produces is `float("inf")` for the profit factor, so that one field lives
in `PFloat` (a rational or `+inf`), with the float arithmetic `np.mean`
would perform on such values (`inf` absorbs). -/

/-- A Python float as produced by this code: a finite value or `+inf`. -/
inductive PFloat where
  | fin (q : ℚ)
  | posInf
  deriving DecidableEq

def PFloat.add : PFloat → PFloat → PFloat
  | .fin a, .fin b => .fin (a + b)
  | _, _ => .posInf

/-- Division by a (positive) count, as in taking a mean. -/
def PFloat.divNat : PFloat → Nat → PFloat
  | .fin a, n => .fin (a / (n : ℚ))
  | .posInf, _ => .posInf

/-- The fields of the backtrader `TradeAnalyzer` report that
`_process_trade_analysis` reads. -/
structure TradeAnalysisInput where
  total_total : Nat
  won_total : Nat
  lost_total : Nat
  pnl_net_average : ℚ
  won_pnl_average : ℚ
  won_pnl_max : ℚ
  won_pnl_total : ℚ
  lost_pnl_average : ℚ
  lost_pnl_max : ℚ
  lost_pnl_total : ℚ
  len_average : ℚ
  deriving DecidableEq

/-- The processed trade-analysis record `_process_trade_analysis` returns.
Every field is a number in both branches of the source (the zero-trade
branch returns literal `0`s; the other branch returns numbers, with
`profit_factor` possibly `float("inf")`). -/
structure ProcessedTA where
  total_trades : ℚ
  winning_trades : ℚ
  losing_trades : ℚ
  win_rate : ℚ
  avg_trade : ℚ
  avg_win : ℚ
  avg_loss : ℚ
  largest_win : ℚ
  largest_loss : ℚ
  avg_trade_length : ℚ
  profit_factor : PFloat
  deriving DecidableEq

/-- Embeds `Metrics._process_trade_analysis`. -/
def Metrics_process_trade_analysis (ta : TradeAnalysisInput) : ProcessedTA :=
  let total_trades := ta.total_total
  if total_trades = 0 then
    { total_trades := 0, winning_trades := 0, losing_trades := 0
      win_rate := 0, avg_trade := 0, avg_win := 0, avg_loss := 0
      largest_win := 0, largest_loss := 0, avg_trade_length := 0
      profit_factor := .fin 0 }
  else
    let winning_trades := ta.won_total
    let losing_trades := ta.lost_total
    let win_rate : ℚ :=
      if 0 < total_trades then ((winning_trades : ℚ) / (total_trades : ℚ)) * 100 else 0
    let avg_trade := ta.pnl_net_average
    let avg_win : ℚ := if 0 < winning_trades then ta.won_pnl_average else 0
    let avg_loss : ℚ := if 0 < losing_trades then ta.lost_pnl_average else 0
    let largest_win : ℚ := if 0 < winning_trades then ta.won_pnl_max else 0
    let largest_loss : ℚ := if 0 < losing_trades then ta.lost_pnl_max else 0
    let avg_trade_length := ta.len_average
    let gross_profits : ℚ := if 0 < winning_trades then ta.won_pnl_total else 0
    let gross_losses : ℚ := if 0 < losing_trades then |ta.lost_pnl_total| else 0
    let profit_factor : PFloat :=
      if gross_losses ≠ 0 then .fin (gross_profits / gross_losses) else .posInf
    { total_trades := (total_trades : ℚ), winning_trades := (winning_trades : ℚ)
      losing_trades := (losing_trades : ℚ), win_rate := win_rate
      avg_trade := avg_trade, avg_win := avg_win, avg_loss := avg_loss
      largest_win := largest_win, largest_loss := largest_loss
      avg_trade_length := avg_trade_length, profit_factor := profit_factor }

/-- What `_calculate_single` reads off one backtesting result object:
`result.broker.getvalue()`, the analyzer dictionaries (whose `.get` calls
can yield `None`), and the `TradeAnalyzer` report. -/
structure SingleResult where
  broker_value : ℚ
  sharpe : Option ℚ
  max_drawdown : Option ℚ
  rtot : Option ℚ
  trades : TradeAnalysisInput
  deriving DecidableEq

/-- The flat metrics record `_calculate_single` returns. -/
structure MetricsRecord where
  final_portfolio_value : ℚ
  sharpe_ratio : Option ℚ
  max_drawdown : Option ℚ
  total_return : Option ℚ
  trade_analysis : ProcessedTA
  deriving DecidableEq

/-- Embeds `Metrics._calculate_single`. -/
def Metrics_calculate_single (r : SingleResult) : MetricsRecord :=
  { final_portfolio_value := r.broker_value
    sharpe_ratio := r.sharpe
    max_drawdown := r.max_drawdown
    total_return := r.rtot
    trade_analysis := Metrics_process_trade_analysis r.trades }

/-- Embeds `safe_mean` (defined inside `_calculate_multiple`): drop the `None`s
and return `np.mean` of what is left, or `None` when nothing is left. -/
def safe_mean (values : List (Option ℚ)) : Option ℚ :=
  let valid_values := values.filterMap id
  if valid_values.isEmpty then none
  else some (valid_values.sum / (valid_values.length : ℚ))

/-- Embeds `safe_mean` as applied to the `profit_factor` column, whose entries are
floats that may be `inf` (and are never `None`). -/
def safe_mean_pf (values : List (Option PFloat)) : Option PFloat :=
  let valid_values := values.filterMap id
  if valid_values.isEmpty then none
  else some ((valid_values.foldl PFloat.add (.fin 0)).divNat valid_values.length)

/-- The averaged trade-analysis record built by `_calculate_multiple`. -/
structure AvgTradeAnalysis where
  total_trades : Option ℚ
  winning_trades : Option ℚ
  losing_trades : Option ℚ
  win_rate : Option ℚ
  avg_trade : Option ℚ
  avg_win : Option ℚ
  avg_loss : Option ℚ
  largest_win : Option ℚ
  largest_loss : Option ℚ
  avg_trade_length : Option ℚ
  profit_factor : Option PFloat
  deriving DecidableEq

/-- The `average_metrics` record built by `_calculate_multiple`. -/
structure AvgMetrics where
  final_portfolio_value : Option ℚ
  sharpe_ratio : Option ℚ
  max_drawdown : Option ℚ
  total_return : Option ℚ
  trade_analysis : AvgTradeAnalysis
  deriving DecidableEq

/-- The `{individual_results, average_metrics}` wrapper. -/
structure WrappedMetrics where
  individual_results : List MetricsRecord
  average_metrics : AvgMetrics
  deriving DecidableEq

/-- Embeds `Metrics._calculate_multiple`: per-result metrics in order, then the
null-excluding means (the list comprehensions feed `safe_mean` columns of
values; the columns that cannot contain `None` are injected via `some`). -/
def Metrics_calculate_multiple (results : List SingleResult) : WrappedMetrics :=
  let individual_results := results.map Metrics_calculate_single
  let trade_analyses := individual_results.map (·.trade_analysis)
  { individual_results := individual_results
    average_metrics :=
      { final_portfolio_value :=
          safe_mean (individual_results.map (fun r => some r.final_portfolio_value))
        sharpe_ratio := safe_mean (individual_results.map (·.sharpe_ratio))
        max_drawdown := safe_mean (individual_results.map (·.max_drawdown))
        total_return := safe_mean (individual_results.map (·.total_return))
        trade_analysis :=
          { total_trades := safe_mean (trade_analyses.map (fun ta => some ta.total_trades))
            winning_trades := safe_mean (trade_analyses.map (fun ta => some ta.winning_trades))
            losing_trades := safe_mean (trade_analyses.map (fun ta => some ta.losing_trades))
            win_rate := safe_mean (trade_analyses.map (fun ta => some ta.win_rate))
            avg_trade := safe_mean (trade_analyses.map (fun ta => some ta.avg_trade))
            avg_win := safe_mean (trade_analyses.map (fun ta => some ta.avg_win))
            avg_loss := safe_mean (trade_analyses.map (fun ta => some ta.avg_loss))
            largest_win := safe_mean (trade_analyses.map (fun ta => some ta.largest_win))
            largest_loss := safe_mean (trade_analyses.map (fun ta => some ta.largest_loss))
            avg_trade_length := safe_mean (trade_analyses.map (fun ta => some ta.avg_trade_length))
            profit_factor := safe_mean_pf (trade_analyses.map (fun ta => some ta.profit_factor)) } } }

/-- The argument of `Metrics.calculate`: either a Python `list` of results
(each a `cerebro.run()` return whose `[0]` is the result object) or a
single result tuple. -/
inductive CalcInput where
  | listIn (results : List SingleResult)
  | singleIn (result : SingleResult)

/-- The two shapes `Metrics.calculate` can return. -/
inductive CalcOutput where
  | flat (m : MetricsRecord)
  | wrapped (w : WrappedMetrics)
  deriving DecidableEq

def CalcOutput.isWrapped : CalcOutput → Bool
  | .flat _ => false
  | .wrapped _ => true

/-- Embeds `Metrics.calculate`: dispatch on `isinstance(results, list)`. -/
def Metrics_calculate : CalcInput → CalcOutput
  | .listIn results => .wrapped (Metrics_calculate_multiple results)
  | .singleIn result => .flat (Metrics_calculate_single result)

/-- Embeds `Backtester.run_backtest`: backtest each asset in order (the per-asset
run is an external effect, supplied as an oracle that yields the
`results[0]` object of `_run_single_asset_backtest(asset)`), collect the
results in a Python `list`, and hand that list to `Metrics.calculate`. -/
def run_backtest (runSingleAsset : String → SingleResult)
    (assets : List String) : CalcOutput :=
  Metrics_calculate (.listIn (assets.map runSingleAsset))

/-! ## Code extraction from LLM output (`llm_interface.extract_code`)

The source first searches for the regex pattern of a fenced block —
three backticks, an optional `python` tag, a newline, then a lazy body up
to the next three backticks, with `re.DOTALL` — and returns the trimmed
group.  Otherwise it falls back to the recording line scan. -/

/-- Characters `str.strip()` removes (the ASCII whitespace Python strips). -/
def pyIsSpace (c : Char) : Bool :=
  c = ' ' || c = '\t' || c = '\n' || c = '\r' || c = '\x0b' || c = '\x0c'

def pyStripList (cs : List Char) : List Char :=
  ((cs.dropWhile pyIsSpace).reverse.dropWhile pyIsSpace).reverse

/-- Python `str.strip()`. -/
def pyStrip (s : String) : String :=
  String.mk (pyStripList s.toList)

/-- The three-backtick fence marker of the regex. -/
def fenceMarker : List Char := "```".toList

/-- Lazy `(.*?)` up to the next fence marker (with `re.DOTALL`, so it may
cross newlines): the shortest prefix whose continuation starts with the
marker, or `none` when no closing marker follows. -/
def lazyInterior : List Char → Option (List Char)
  | [] => none
  | c :: cs =>
    if fenceMarker.isPrefixOf (c :: cs) then some []
    else
      match lazyInterior cs with
      | some i => some (c :: i)
      | none => none

/-- Attempts the fence pattern anchored at this position.  The greedy
optional tag `(?:python)?` commits to `python` exactly when the next
characters are `python` followed by the mandatory newline (backtracking to
the empty alternative cannot succeed once `python` was present, since the
newline check would re-read the letter `p`). -/
def matchFenceAt (cs : List Char) : Option (List Char) :=
  if fenceMarker.isPrefixOf cs then
    let rest := cs.drop 3
    if ("python\n".toList).isPrefixOf rest then lazyInterior (rest.drop 7)
    else if ("\n".toList).isPrefixOf rest then lazyInterior (rest.drop 1)
    else none
  else none

/-- Leftmost regex match, as `re.search` finds it: try every start
position left to right. -/
def searchFence : List Char → Option (List Char)
  | [] => none
  | c :: cs =>
    match matchFenceAt (c :: cs) with
    | some i => some i
    | none => searchFence cs

/-- Python `str.startswith`, over the character lists (kept kernel
computable). -/
def pyStartsWith (s pre : String) : Bool :=
  pre.toList.isPrefixOf s.toList

/-- Python `output.split("\n")`: split the character list at every
newline, keeping empty pieces (splitting the empty string gives one empty
piece). -/
def splitCharList : List Char → List (List Char)
  | [] => [[]]
  | c :: rest =>
    let r := splitCharList rest
    if c = '\n' then [] :: r
    else
      match r with
      | h :: t => (c :: h) :: t
      | [] => [[c]]

def pySplitLines (s : String) : List String :=
  (splitCharList s.toList).map String.mk

/-- Python `"\n".join(lines)`. -/
def joinLines : List String → String
  | [] => ""
  | [l] => l
  | l :: rest => l ++ "\n" ++ joinLines rest

/-- Recording condition of the fallback scan:
`line.strip().startswith(("import", "from", "class", "def", "#"))`. -/
def lineTriggers (line : String) : Bool :=
  let s := pyStrip line
  pyStartsWith s "import" || pyStartsWith s "from" || pyStartsWith s "class" ||
    pyStartsWith s "def" || pyStartsWith s "#"

/-- The fallback loop over `output.split("\n")` with its `recording` flag:
a line is kept when it triggers or recording has already started, and the
flag, once set, stays set. -/
def scanLinesAux (recording : Bool) : List String → List String
  | [] => []
  | line :: rest =>
    if lineTriggers line || recording then
      line :: scanLinesAux true rest
    else
      scanLinesAux recording rest

/-- Embeds `extract_code` from `llm_interface.py`: return the stripped
interior of the first fenced block when the regex matches, otherwise join
the recorded lines with newlines. -/
def extract_code (output : String) : String :=
  match searchFence output.toList with
  | some interior => pyStrip (String.mk interior)
  | none => joinLines (scanLinesAux false (pySplitLines output))

/-- Recording condition as the claim words it — the line itself "starts
with import, from, class, def, or #" — stated for comparison with the
source's `lineTriggers`, which strips the line first. -/
def lineTriggersClaim (line : String) : Bool :=
  pyStartsWith line "import" || pyStartsWith line "from" ||
    pyStartsWith line "class" || pyStartsWith line "def" || pyStartsWith line "#"

/-! ## Helper lemmas about the validation loop -/

/-- One failed iteration with at least one more round left: the loop
corrects and recurses, bumping both counters. -/
theorem checkAndCorrectFuel_fail_step (v : Validate) (c : Correct)
    (code : PyCode) (n : Nat) (hn : n ≠ 0) (hcode : (v code).1 = false) :
    checkAndCorrectFuel v c (n + 1) code =
      ⟨(checkAndCorrectFuel v c n (c code (v code).2)).result,
       (checkAndCorrectFuel v c n (c code (v code).2)).corrections + 1,
       (checkAndCorrectFuel v c n (c code (v code).2)).validations + 1⟩ := by
  conv_lhs => rw [checkAndCorrectFuel.eq_def]
  simp [hcode, hn]

/-- When every validation fails, one round of fuel `f + 1` performs `f`
corrections, `f + 1` validations, and ends `exhausted` with the diagnostic
produced by validating the `f`-times-corrected code. -/
theorem checkAndCorrectFuel_allFail (v : Validate) (c : Correct)
    (hv : ∀ x, (v x).1 = false) :
    ∀ (f : Nat) (code : PyCode),
      (checkAndCorrectFuel v c (f + 1) code).corrections = f ∧
      (checkAndCorrectFuel v c (f + 1) code).result =
        .exhausted (v ((corrStep v c)^[f] code)).2 ∧
      (checkAndCorrectFuel v c (f + 1) code).validations = f + 1 := by
  intro f
  induction f with
  | zero =>
    intro code
    simp [checkAndCorrectFuel, hv code]
  | succ n ih =>
    intro code
    have hcode := hv code
    obtain ⟨ih1, ih2, ih3⟩ := ih (c code (v code).2)
    rw [checkAndCorrectFuel_fail_step v c code (n + 1) (Nat.succ_ne_zero n) hcode]
    refine ⟨by simpa using ih1, ?_, by simpa using ih3⟩
    show (checkAndCorrectFuel v c (n + 1) (c code (v code).2)).result =
      .exhausted (v ((corrStep v c)^[n + 1] code)).2
    rw [ih2, Function.iterate_succ_apply]
    rfl

end Backtester

namespace Backtester

/-- C1: for strategy code on which every sandbox validation fails and
`max_attempts >= 1`, `check_and_correct_strategy` calls
`llm_interface.correct_strategy` exactly `max_attempts - 1` times and then
raises the `ValueError` carrying the last diagnostic message (the
validation error of the last corrected candidate). -/
theorem C1_always_failing_loop (v : Validate) (c : Correct) (code : PyCode)
    (m : Int) (hm : 1 ≤ m) (hv : ∀ x, (v x).1 = false) :
    (check_and_correct_strategy v c code m).corrections = m.toNat - 1 ∧
    (check_and_correct_strategy v c code m).result =
      .exhausted (v ((corrStep v c)^[m.toNat - 1] code)).2 := by
  obtain ⟨f, hf⟩ : ∃ f, m.toNat = f + 1 := by
    refine ⟨m.toNat - 1, ?_⟩
    omega
  unfold check_and_correct_strategy
  rw [hf]
  obtain ⟨h1, h2, _⟩ := checkAndCorrectFuel_allFail v c hv f code
  have hsub : f + 1 - 1 = f := rfl
  rw [hsub]
  exact ⟨h1, h2⟩

/-- Witness for C1 at `max_attempts = 3` with an always-failing validator:
two correction calls, then failure carrying the last diagnostic. -/
theorem C1_witness :
    (check_and_correct_strategy (fun _ => (false, "boom")) (fun x _ => x)
        .synErr 3).corrections = 2 ∧
    (check_and_correct_strategy (fun _ => (false, "boom")) (fun x _ => x)
        .synErr 3).result = .exhausted "boom" := by
  have h := C1_always_failing_loop (fun _ => (false, "boom")) (fun x _ => x)
    .synErr 3 (by decide) (fun x => rfl)
  exact ⟨h.1, h.2⟩

/-- Minimal strategy module whose `params` tuple holds the pair
`("period", n)` with `n` a global name — the Python source
`n = 14` followed by `class MyStrategy: params = (("period", n),)`
executes successfully, so its first sandbox validation passes. -/
def paramsWithGlobalName : PyModule :=
  [⟨"MyStrategy",
    [.assign [.nameT "params"] (.tuple [.tuple [.constStr "period", .name "n"]])]⟩]

/-- C5 counterexample: with a validator that accepts the code on the first
attempt, `check_and_correct_strategy` on `paramsWithGlobalName` does not
return the code/parameter pair — parameter extraction raises
`AttributeError`, which propagates out of the call. -/
theorem C5_counterexample :
    (check_and_correct_strategy (fun _ => (true, "")) (fun x _ => x)
        (.wellFormed paramsWithGlobalName) 3).result = .pyError .attributeError := rfl

/-- C5 (amended): for strategy code whose first sandbox validation succeeds
and whose parameter extraction does not raise, `check_and_correct_strategy`
with `max_attempts >= 1` returns on the first attempt — one validation, no
correction calls — yielding the unchanged input code paired with the
extracted parameters. -/
theorem C5_first_attempt_success (v : Validate) (c : Correct) (code : PyCode)
    (ps : Params) (m : Int) (hm : 1 ≤ m) (hv : (v code).1 = true)
    (hex : extract_parameters code = .ok ps) :
    (check_and_correct_strategy v c code m).result = .okR code ps ∧
    (check_and_correct_strategy v c code m).corrections = 0 ∧
    (check_and_correct_strategy v c code m).validations = 1 := by
  obtain ⟨f, hf⟩ : ∃ f, m.toNat = f + 1 := by
    refine ⟨m.toNat - 1, ?_⟩
    omega
  unfold check_and_correct_strategy
  rw [hf]
  simp [checkAndCorrectFuel, hv, hex]

/-- Witness for C5 (amended) on a well-formed strategy whose `params` holds
the single constant pair `("period", 14)`. -/
theorem C5_witness :
    (check_and_correct_strategy (fun _ => (true, "")) (fun x _ => x)
        (.wellFormed [⟨"MyStrategy",
          [.assign [.nameT "params"]
            (.tuple [.tuple [.constStr "period", .constNum 14]])]⟩]) 3).result =
      .okR (.wellFormed [⟨"MyStrategy",
          [.assign [.nameT "params"]
            (.tuple [.tuple [.constStr "period", .constNum 14]])]⟩])
        [(.strV "period", .numV 14)] := by
  have h := C5_first_attempt_success (fun _ => (true, "")) (fun x _ => x)
    (.wellFormed [⟨"MyStrategy",
      [.assign [.nameT "params"]
        (.tuple [.tuple [.constStr "period", .constNum 14]])]⟩])
    [(.strV "period", .numV 14)] 3 (by decide) rfl rfl
  exact h.1

/-- C10: for `max_attempts <= 0` the `while` loop body never runs, so
`check_and_correct_strategy` performs no sandbox validation and no
correction call and raises the trailing
`ValueError("Unexpected error in strategy correction.")`. -/
theorem C10_nonpositive_max_attempts (v : Validate) (c : Correct)
    (code : PyCode) (m : Int) (hm : m ≤ 0) :
    (check_and_correct_strategy v c code m).result = .unexpected ∧
    (check_and_correct_strategy v c code m).corrections = 0 ∧
    (check_and_correct_strategy v c code m).validations = 0 := by
  unfold check_and_correct_strategy
  rw [Int.toNat_of_nonpos hm]
  exact ⟨rfl, rfl, rfl⟩

/-- Witness for C10 at `max_attempts = 0`. -/
theorem C10_witness :
    (check_and_correct_strategy (fun _ => (false, "boom")) (fun x _ => x)
        .synErr 0).result = .unexpected ∧
    (check_and_correct_strategy (fun _ => (false, "boom")) (fun x _ => x)
        .synErr 0).corrections = 0 ∧
    (check_and_correct_strategy (fun _ => (false, "boom")) (fun x _ => x)
        .synErr 0).validations = 0 :=
  C10_nonpositive_max_attempts (fun _ => (false, "boom")) (fun x _ => x)
    .synErr 0 (by decide)

/-- C4: whatever the subprocess outcome — success, compile/runtime error
(`CalledProcessError`), or timeout — after `execute_in_sandbox` returns or
raises, the temporary file is no longer on the filesystem. -/
theorem C4_tempfile_always_removed (fs : FS) (tmpPath : String)
    (outcome : RunOutcome) :
    tmpPath ∉ (execute_in_sandbox fs tmpPath outcome).1 := by
  simp [execute_in_sandbox, List.mem_filter]

/-- Witness for C4 on a concrete filesystem and all three outcomes. -/
theorem C4_witness :
    "tmp123.py" ∉ (execute_in_sandbox ["data.csv"] "tmp123.py" (.success "out")).1 ∧
    "tmp123.py" ∉ (execute_in_sandbox ["data.csv"] "tmp123.py"
        (.calledProcessError "NameError")).1 ∧
    "tmp123.py" ∉ (execute_in_sandbox ["data.csv"] "tmp123.py" .timeoutExpired).1 :=
  ⟨C4_tempfile_always_removed ["data.csv"] "tmp123.py" (.success "out"),
   C4_tempfile_always_removed ["data.csv"] "tmp123.py" (.calledProcessError "NameError"),
   C4_tempfile_always_removed ["data.csv"] "tmp123.py" .timeoutExpired⟩

/-- A concrete per-asset result used to exhibit the single-asset shape. -/
def sampleResult : SingleResult :=
  { broker_value := 10000, sharpe := none, max_drawdown := none, rtot := none
    trades := ⟨0, 0, 0, 0, 0, 0, 0, 0, 0, 0, 0⟩ }

/-- C3 counterexample: a backtest run over exactly one asset does not yield
a plain flat record — `run_backtest` collects results in a Python `list`,
so `Metrics.calculate` takes the multi-result path and returns the
`{individual_results, average_metrics}` wrapper even for one asset. -/
theorem C3_counterexample :
    (run_backtest (fun _ => sampleResult) ["AAPL"]).isWrapped = true := rfl

/-- C3 (amended): the wrapper is produced exactly when `Metrics.calculate`
receives a Python `list`; `run_backtest` always passes a list, so every
run — single-asset included — yields the wrapped record, whose
`individual_results` has one entry per asset; the plain flat record arises
only when `calculate` is applied to a bare single result. -/
theorem C3_wrapped_shape (runSingleAsset : String → SingleResult)
    (assets : List String) (r : SingleResult) :
    (run_backtest runSingleAsset assets).isWrapped = true ∧
    run_backtest runSingleAsset assets =
      .wrapped (Metrics_calculate_multiple (assets.map runSingleAsset)) ∧
    (Metrics_calculate_multiple (assets.map runSingleAsset)).individual_results.length
      = assets.length ∧
    (Metrics_calculate (.singleIn r)).isWrapped = false := by
  refine ⟨rfl, rfl, ?_, rfl⟩
  simp [Metrics_calculate_multiple]

/-- C6: the multi-asset average uses a null-excluding mean — a field none
of the assets supply is `None`, a field some assets supply averages only
the present values (in particular Sharpe ratios `None`, `1.0`, `3.0`
average to exactly `2.0`), and the averaged Sharpe field is exactly
`safe_mean` of the per-asset Sharpe column. -/
theorem C6_null_excluding_mean :
    (∀ vs : List (Option ℚ), (∀ v ∈ vs, v = none) → safe_mean vs = none) ∧
    (∀ vs : List (Option ℚ), vs.filterMap id ≠ [] →
        safe_mean vs = some ((vs.filterMap id).sum / ((vs.filterMap id).length : ℚ))) ∧
    (∀ rs : List SingleResult,
        (Metrics_calculate_multiple rs).average_metrics.sharpe_ratio =
          safe_mean ((rs.map Metrics_calculate_single).map (·.sharpe_ratio))) ∧
    safe_mean [none, some 1, some 3] = some 2 := by
  refine ⟨?_, ?_, fun rs => rfl, by simp [safe_mean]; norm_num⟩
  · intro vs h
    have hnil : vs.filterMap id = [] := by
      rw [List.filterMap_eq_nil_iff]
      intro a ha
      exact h a ha
    simp [safe_mean, hnil]
  · intro vs h
    simp only [safe_mean]
    rw [if_neg]
    simpa using h

/-- Witness for C6: Sharpe ratios `None`, `1`, `3` average to exactly `2`. -/
theorem C6_witness : safe_mean [some 1, none, some 3] = some 2 := by
  have h := C6_null_excluding_mean.2.1 [some 1, none, some 3] (by decide)
  rw [h]
  norm_num [List.filterMap_cons, id]

/-- The distinguished all-zero trade-analysis record of the zero-trade
branch. -/
def zeroTradeRecord : ProcessedTA :=
  { total_trades := 0, winning_trades := 0, losing_trades := 0, win_rate := 0
    avg_trade := 0, avg_win := 0, avg_loss := 0, largest_win := 0
    largest_loss := 0, avg_trade_length := 0, profit_factor := .fin 0 }

/-- C7: with a total trade count of zero, every derived trade-analysis
field is exactly `0` (the profit factor the finite number `0`), never
`None` and never NaN. -/
theorem C7_zero_trades_all_zero (ta : TradeAnalysisInput)
    (h : ta.total_total = 0) :
    Metrics_process_trade_analysis ta = zeroTradeRecord := by
  simp [Metrics_process_trade_analysis, h, zeroTradeRecord]

/-- Witness for C7 on a ledger with zero total trades (and nonzero noise in
the unused fields). -/
theorem C7_witness :
    Metrics_process_trade_analysis ⟨0, 0, 0, 1, 2, 3, 4, 5, 6, 7, 8⟩ =
      zeroTradeRecord :=
  C7_zero_trades_all_zero ⟨0, 0, 0, 1, 2, 3, 4, 5, 6, 7, 8⟩ rfl

/-- C8: with at least one trade and zero gross losses (in particular zero
losing trades), the profit factor is exactly `float("inf")`. -/
theorem C8_profit_factor_infinity (ta : TradeAnalysisInput)
    (h1 : ta.total_total ≠ 0)
    (h2 : (if 0 < ta.lost_total then |ta.lost_pnl_total| else 0) = 0) :
    (Metrics_process_trade_analysis ta).profit_factor = .posInf := by
  simp [Metrics_process_trade_analysis, h1, h2]

/-- Witness for C8: two trades, both winners, no losers. -/
theorem C8_witness :
    (Metrics_process_trade_analysis ⟨2, 2, 0, 5, 5, 7, 10, 0, 0, 0, 3⟩).profit_factor
      = .posInf :=
  C8_profit_factor_infinity ⟨2, 2, 0, 5, 5, 7, 10, 0, 0, 0, 3⟩ (by decide) (by decide)

/-! ## Safety of parameter extraction (for C2)

The walk only dereferences `.s`/`.n`/`.value` on the two elements of a
2-element `params` pair, so extraction completes without an exception
exactly on parseable code whose 2-element pairs are built from constants. -/

/-- Expression nodes on which the `.s`-or-`.value` (resp. `.n`-or-`.value`)
access succeeds: the `ast.Constant` shapes. -/
def constLiteral : PyExpr → Bool
  | .constStr _ => true
  | .constNum _ => true
  | .constOther => true
  | .name _ => false
  | .tuple _ => false

/-- Pair shape the extractor processes: an `ast.Tuple` of exactly two
elements. -/
def isPairShape : PyExpr → Bool
  | .tuple [_, _] => true
  | _ => false

/-- An element of the `params` tuple that cannot raise: either it is not a
2-element tuple (and is skipped), or both its elements are constants. -/
def safePairElt (e : PyExpr) : Bool :=
  match e with
  | .tuple [a, b] => constLiteral a && constLiteral b
  | _ => true

def isParamsTarget : PyTarget → Bool
  | .nameT id => id = "params"
  | .otherT => false

def safeStmt : PyStmt → Bool
  | .assign targets value =>
      if targets.any isParamsTarget then
        match value with
        | .tuple elts => elts.all safePairElt
        | _ => true
      else true
  | .otherStmt => true

def safeClass (c : PyClassDef) : Bool :=
  if c.cname = "MyStrategy" then c.body.all safeStmt else true

def safeModule (m : PyModule) : Bool := m.all safeClass

theorem pairKey_const (a : PyExpr) (h : constLiteral a = true) :
    ∃ k, pairKey a = .ok k := by
  cases a with
  | constStr s => exact ⟨.strV s, rfl⟩
  | constNum n => exact ⟨.numV n, rfl⟩
  | constOther => exact ⟨.otherV, rfl⟩
  | name i => simp [constLiteral] at h
  | tuple es => simp [constLiteral] at h

theorem pairValue_const (b : PyExpr) (h : constLiteral b = true) :
    ∃ w, pairValue b = .ok w := by
  cases b with
  | constStr s => exact ⟨.strV s, rfl⟩
  | constNum n => exact ⟨.numV n, rfl⟩
  | constOther => exact ⟨.otherV, rfl⟩
  | name i => simp [constLiteral] at h
  | tuple es => simp [constLiteral] at h

/-- A `params` element that is not a 2-element tuple is silently skipped:
the dictionary is returned unchanged and no exception arises. -/
theorem processElt_skip (ps : Params) (e : PyExpr) (h : isPairShape e = false) :
    processElt ps e = .ok ps := by
  cases e with
  | constStr s => rfl
  | constNum n => rfl
  | constOther => rfl
  | name i => rfl
  | tuple elts =>
    rcases elts with _ | ⟨a, _ | ⟨b, _ | ⟨c, rest⟩⟩⟩
    · rfl
    · rfl
    · simp [isPairShape] at h
    · rfl

theorem processElt_safe (ps : Params) (e : PyExpr) (h : safePairElt e = true) :
    ∃ ps', processElt ps e = .ok ps' := by
  cases e with
  | constStr s => exact ⟨ps, rfl⟩
  | constNum n => exact ⟨ps, rfl⟩
  | constOther => exact ⟨ps, rfl⟩
  | name i => exact ⟨ps, rfl⟩
  | tuple elts =>
    rcases elts with _ | ⟨a, _ | ⟨b, _ | ⟨c, rest⟩⟩⟩
    · exact ⟨ps, rfl⟩
    · exact ⟨ps, rfl⟩
    · simp only [safePairElt, Bool.and_eq_true] at h
      obtain ⟨k, hk⟩ := pairKey_const a h.1
      obtain ⟨w, hw⟩ := pairValue_const b h.2
      exact ⟨dictInsert ps k w, by simp only [processElt, hk, hw]; rfl⟩
    · exact ⟨ps, rfl⟩

theorem processElts_safe (es : List PyExpr) (h : es.all safePairElt = true) :
    ∀ ps, ∃ ps', processElts ps es = .ok ps' := by
  induction es with
  | nil => exact fun ps => ⟨ps, rfl⟩
  | cons e es ih =>
    intro ps
    simp only [List.all_cons, Bool.and_eq_true] at h
    obtain ⟨ps1, h1⟩ := processElt_safe ps e h.1
    obtain ⟨ps2, h2⟩ := ih (by simpa using h.2) ps1
    exact ⟨ps2, by simp only [processElts, h1]; exact h2⟩

theorem processTarget_safe (value : PyExpr) (t : PyTarget) (ps : Params)
    (h : isParamsTarget t = true →
      ∀ elts, value = .tuple elts → elts.all safePairElt = true) :
    ∃ ps', processTarget value ps t = .ok ps' := by
  cases t with
  | otherT => exact ⟨ps, rfl⟩
  | nameT id =>
    by_cases hid : id = "params"
    · subst hid
      cases value with
      | tuple elts =>
        exact processElts_safe elts (h rfl elts rfl) ps
      | constStr s => exact ⟨ps, by simp [processTarget]⟩
      | constNum n => exact ⟨ps, by simp [processTarget]⟩
      | constOther => exact ⟨ps, by simp [processTarget]⟩
      | name i => exact ⟨ps, by simp [processTarget]⟩
    · exact ⟨ps, by simp [processTarget, hid]⟩

theorem processTargets_safe (value : PyExpr) (ts : List PyTarget)
    (h : ts.any isParamsTarget = true →
      ∀ elts, value = .tuple elts → elts.all safePairElt = true) :
    ∀ ps, ∃ ps', processTargets value ps ts = .ok ps' := by
  induction ts with
  | nil => exact fun ps => ⟨ps, rfl⟩
  | cons t ts ih =>
    intro ps
    obtain ⟨ps1, h1⟩ := processTarget_safe value t ps
      (fun ht => h (by simp [ht]))
    obtain ⟨ps2, h2⟩ := ih (fun ht => h (by simp [List.any_cons, ht])) ps1
    exact ⟨ps2, by simp only [processTargets, h1]; exact h2⟩

theorem processStmt_safe (s : PyStmt) (h : safeStmt s = true) :
    ∀ ps, ∃ ps', processStmt ps s = .ok ps' := by
  cases s with
  | otherStmt => exact fun ps => ⟨ps, rfl⟩
  | assign targets value =>
    intro ps
    refine processTargets_safe value targets ?_ ps
    intro hany elts hval
    subst hval
    simpa [safeStmt, hany] using h

theorem processStmts_safe (ss : List PyStmt) (h : ss.all safeStmt = true) :
    ∀ ps, ∃ ps', processStmts ps ss = .ok ps' := by
  induction ss with
  | nil => exact fun ps => ⟨ps, rfl⟩
  | cons s ss ih =>
    intro ps
    simp only [List.all_cons, Bool.and_eq_true] at h
    obtain ⟨ps1, h1⟩ := processStmt_safe s h.1 ps
    obtain ⟨ps2, h2⟩ := ih h.2 ps1
    exact ⟨ps2, by simp only [processStmts, h1]; exact h2⟩

theorem processClass_safe (c : PyClassDef) (h : safeClass c = true) :
    ∀ ps, ∃ ps', processClass ps c = .ok ps' := by
  intro ps
  by_cases hc : c.cname = "MyStrategy"
  · obtain ⟨ps', h'⟩ := processStmts_safe c.body (by simpa [safeClass, hc] using h) ps
    exact ⟨ps', by simp [processClass, hc, h']⟩
  · exact ⟨ps, by simp [processClass, hc]⟩

theorem processClasses_safe (cs : List PyClassDef) (h : cs.all safeClass = true) :
    ∀ ps, ∃ ps', processClasses ps cs = .ok ps' := by
  induction cs with
  | nil => exact fun ps => ⟨ps, rfl⟩
  | cons c cs ih =>
    intro ps
    simp only [List.all_cons, Bool.and_eq_true] at h
    obtain ⟨ps1, h1⟩ := processClass_safe c h.1 ps
    obtain ⟨ps2, h2⟩ := ih h.2 ps1
    exact ⟨ps2, by simp only [processClasses, h1]; exact h2⟩

/-- Strategy module whose `params` tuple holds the pair `("period", m)`
with `m` a bare name — syntactically valid Python, so `ast.parse`
succeeds, yet the pair matches neither the skip path nor the literal
path. -/
def nonConstPairModule : PyModule :=
  [⟨"MyStrategy",
    [.assign [.nameT "params"] (.tuple [.tuple [.constStr "period", .name "m"]])]⟩]

/-- C2 counterexample: `extract_parameters` is not total and does not
silently skip every non-literal pair — on `nonConstPairModule` (source
text `class MyStrategy: params = (("period", m),)`) it raises
`AttributeError` instead of returning a mapping. -/
theorem C2_counterexample :
    extract_parameters (.wellFormed nonConstPairModule) = .error .attributeError := rfl

/-- C2 (amended): `extract_parameters` returns a mapping whenever the input
parses and every element of a `params` tuple in a `MyStrategy` class is
either not a 2-element tuple (such elements are silently skipped, without
error) or a 2-element tuple of literal constants; syntactically invalid
input raises `SyntaxError` and a 2-element pair with a non-constant
element raises `AttributeError` rather than being skipped. -/
theorem C2_extraction_total_on_safe_input (m : PyModule)
    (h : safeModule m = true) :
    (∃ ps, extract_parameters (.wellFormed m) = .ok ps) ∧
    (∀ (qs : Params) (e : PyExpr), isPairShape e = false →
        processElt qs e = .ok qs) ∧
    extract_parameters .synErr = .error .syntaxError := by
  refine ⟨?_, processElt_skip, rfl⟩
  exact processClasses_safe m h []

/-- Witness for C2 (amended) on a module whose `params` tuple holds the
literal pair `("period", 14)` plus a bare `7` that is skipped. -/
theorem C2_witness :
    ∃ ps, extract_parameters (.wellFormed
      [⟨"MyStrategy",
        [.assign [.nameT "params"]
          (.tuple [.tuple [.constStr "period", .constNum 14], .constNum 7])]⟩])
      = .ok ps :=
  (C2_extraction_total_on_safe_input
    [⟨"MyStrategy",
      [.assign [.nameT "params"]
        (.tuple [.tuple [.constStr "period", .constNum 14], .constNum 7])]⟩]
    rfl).1

/-! ## The fallback line scan of `extract_code` (for C9) -/

/-- Once the `recording` flag is set, every remaining line is kept. -/
theorem scanLinesAux_true (ls : List String) : scanLinesAux true ls = ls := by
  induction ls with
  | nil => rfl
  | cons l rest ih => simp [scanLinesAux, ih]

/-- The fallback scan keeps exactly the suffix starting at the first line
whose stripped form begins with one of the five keywords. -/
theorem scanLinesAux_false (ls : List String) :
    scanLinesAux false ls = ls.dropWhile (fun l => !lineTriggers l) := by
  induction ls with
  | nil => rfl
  | cons l rest ih =>
    by_cases h : lineTriggers l
    · simp [scanLinesAux, List.dropWhile_cons, h, scanLinesAux_true]
    · simp [scanLinesAux, List.dropWhile_cons, h, ih]

/-- C9 counterexample: the fallback trigger strips the line first, so on
the input consisting of the single line `"  import os"` — which does not
itself start with `import`, `from`, `class`, `def`, or `#`, and so under
the claim yields the empty string — `extract_code` records the line and
returns it unchanged and nonempty. -/
theorem C9_counterexample :
    extract_code "  import os" = "  import os" ∧
    lineTriggersClaim "  import os" = false ∧
    ("  import os" : String) ≠ "" := by
  refine ⟨by decide, by decide, by decide⟩

/-- C9 (amended): `extract_code` is total and behaves as follows — when
the fenced-block regex matches, it returns the stripped interior of the
leftmost match; otherwise it returns the lines from the first line whose
whitespace-stripped form starts with `import`, `from`, `class`, `def`, or
`#` through end of input, joined by newlines; and when no line qualifies
it returns the empty string. -/
theorem C9_extract_code_characterization (s : String) :
    (∀ interior, searchFence s.toList = some interior →
        extract_code s = pyStrip (String.mk interior)) ∧
    (searchFence s.toList = none →
        extract_code s = joinLines
          ((pySplitLines s).dropWhile (fun l => !lineTriggers l))) ∧
    (searchFence s.toList = none →
      (∀ l ∈ pySplitLines s, lineTriggers l = false) →
        extract_code s = "") := by
    refine ⟨?_, ?_, ?_⟩
    · intro interior hi
      unfold extract_code
      rw [hi]
    · intro hn
      unfold extract_code
      rw [hn, scanLinesAux_false]
    · intro hn hall
      unfold extract_code
      rw [hn, scanLinesAux_false]
      have : (pySplitLines s).dropWhile (fun l => !lineTriggers l) = [] := by
        rw [List.dropWhile_eq_nil_iff]
        intro l hl
        simp [hall l hl]
      rw [this]
      rfl

/-- Witness for C9 (amended): prose before the code is dropped, recording
starts at the `import` line and keeps everything after it. -/
theorem C9_witness :
    extract_code "hello\nimport os\nx = 1" = "import os\nx = 1" := by
  have h := (C9_extract_code_characterization "hello\nimport os\nx = 1").2.1 (by decide)
  rw [h]
  decide

end Backtester
